import Mathlib

/-!
# memsuo arena allocator (a_memsuo.h): shallow embedding

The block chain of an `Arena` (the `next` links of `ArenaBlock`) is a list of
blocks, head first.  `size_t` and `uintptr_t` are 64 bit unsigned integers:
natural numbers, reduced modulo `2 ^ 64` wherever the C code computes with them.
The C library (malloc, free) and libsodium (sodium_init, sodium_malloc,
sodium_free) are external: the `World` holds the answers they are going to
give, the calls made so far, and the bytes of memory.  Block records are kept
in the chain, not in the bytes of memory: a `memset` that leaves the buffer it
was called for is undefined behaviour in C, and the `World` records that it
happened (`oob`) instead of guessing what was overwritten.
-/

namespace Memsuo

/-! ## Machine integers -/

/-- Largest value of `size_t`. -/
def SIZE_MAX : Nat := 2 ^ 64 - 1

/-- Reduction of a natural number to a `size_t` / `uintptr_t` value. -/
def wrap (n : Nat) : Nat := n % 2 ^ 64

/-- Unsigned subtraction `a - b` of two `size_t` values. -/
def wsub (a b : Nat) : Nat := (a + 2 ^ 64 - b) % 2 ^ 64

/-- The flag bit `ARENA_NO_ZERO`. -/
def ARENA_NO_ZERO : Int := 1

/-- Value of `sizeof(ArenaBlock)`: three words and a pointer. -/
def SIZEOF_ARENABLOCK : Nat := 32

/-! ## Data model -/

/-- One `ArenaBlock`; `self` is the address of the record itself (what
`free(block)` releases), the `next` link is the position in the chain. -/
structure ArenaBlock where
  self : Nat
  capacity : Nat
  used : Nat
  base : Nat
deriving DecidableEq, Repr, Inhabited

/-- The `Arena` record: the chain, head first, and the `secure` flag. -/
structure Arena where
  blocks : List ArenaBlock
  secure : Int
deriving DecidableEq, Repr

/-- A call into the C library or libsodium. -/
inductive Call where
  | malloc (n : Nat)
  | free (p : Nat)
  | sodium_init
  | sodium_malloc (n : Nat)
  | sodium_free (p : Nat)
deriving DecidableEq, Repr

/-- Everything outside the arena record: `answers` are the addresses the next
allocation calls return (0 is NULL, an exhausted list answers NULL),
`init_answers` the results of the next `sodium_init` calls (exhausted: 0),
`calls` the calls made so far, oldest first, and `mem` the bytes of memory.
`oob` is raised once a `memset` has written outside the buffer it was called
for: the real call then overwrites whatever lies there, block records included,
or faults, and from that point the arena and the memory of the model are what
the code had computed before the write, not a description of the program. -/
structure World where
  answers : List Nat
  init_answers : List Int
  calls : List Call
  mem : Nat → Nat
  oob : Bool := false

/-- Call of `malloc(n)`. -/
def malloc (w : World) (n : Nat) : Nat × World :=
  (w.answers.headD 0, { w with answers := w.answers.tail, calls := w.calls ++ [Call.malloc n] })

/-- Call of `sodium_malloc(n)`. -/
def sodium_malloc (w : World) (n : Nat) : Nat × World :=
  (w.answers.headD 0,
    { w with answers := w.answers.tail, calls := w.calls ++ [Call.sodium_malloc n] })

/-- Call of `sodium_init()`. -/
def sodium_init (w : World) : Int × World :=
  (w.init_answers.headD 0,
    { w with init_answers := w.init_answers.tail, calls := w.calls ++ [Call.sodium_init] })

/-- Call of `free(p)`. -/
def free (w : World) (p : Nat) : World :=
  { w with calls := w.calls ++ [Call.free p] }

/-- Call of `sodium_free(p)`. -/
def sodium_free (w : World) (p : Nat) : World :=
  { w with calls := w.calls ++ [Call.sodium_free p] }

/-- Call of `memset(p, 0, n)`. -/
def memset_zero (w : World) (p n : Nat) : World :=
  { w with mem := fun a => if p ≤ a ∧ a < p + n then 0 else w.mem a }

/-- Line 165, `memset(out_ptr, 0, total)` for a request placed in `block`: the
`n` bytes at `p` are zeroed, and `oob` is raised when they do not all lie in
the buffer `[base, base + capacity)` of the block. -/
def zero_fill (w : World) (block : ArenaBlock) (p n : Nat) : World :=
  { memset_zero w p n with
    oob := w.oob || !decide (block.base ≤ p ∧ p + n ≤ block.base + block.capacity) }

/-- Whether the bytes `[p, p + n)` contain the whole record of the block `b`,
the `sizeof(ArenaBlock)` bytes at `b.self`: a `memset(p, 0, n)` then leaves
`next`, `capacity`, `used` and `base` of that record all zero. -/
def covers_record (p n : Nat) (b : ArenaBlock) : Bool :=
  decide (p ≤ b.self ∧ b.self + SIZEOF_ARENABLOCK ≤ p + n)

/-! ## arena_init (a_memsuo.h 77-122) -/

/-- Translation of `arena_init`; `sodium` says whether `USE_LIBSODIUM` is
defined.  Returns the status, the arena and the world. -/
def arena_init (sodium : Bool) (w : World) (initial_size : Nat) (secure_flag : Int) :
    Int × Arena × World :=
  let arena : Arena := { blocks := [], secure := secure_flag }
  if initial_size = 0 then (0, arena, w)
  else if sodium = true ∧ arena.secure ≠ 0 then
    let r := sodium_init w
    if r.1 < 0 then (-1, arena, r.2)
    else
      let a := sodium_malloc r.2 initial_size
      if a.1 = 0 then (-1, arena, a.2)
      else
        let b := malloc a.2 SIZEOF_ARENABLOCK
        if b.1 = 0 then (-1, arena, sodium_free b.2 a.1)
        else
          (0, { arena with blocks := [{ self := b.1, capacity := initial_size, used := 0,
                                        base := a.1 }] }, b.2)
  else
    let a := malloc w initial_size
    if a.1 = 0 then (-1, arena, a.2)
    else
      let b := malloc a.2 SIZEOF_ARENABLOCK
      if b.1 = 0 then (-1, arena, free b.2 a.1)
      else
        (0, { arena with blocks := [{ self := b.1, capacity := initial_size, used := 0,
                                      base := a.1 }] }, b.2)

/-! ## arena_grow (a_memsuo.h 169-238) -/

/-- Lines 171-184 of `arena_grow`: the capacity of the block to append. -/
def grow_capacity (arena : Arena) (min_size : Nat) : Nat :=
  match arena.blocks.getLast? with
  | some last =>
    let new_cap := wrap (last.capacity * 2)
    if new_cap < min_size then min_size else new_cap
  | none => min_size

/-- Translation of `arena_grow`.  Appending at the end of the list is the walk
to the last block followed by `last->next = block`. -/
def arena_grow (sodium : Bool) (w : World) (arena : Arena) (min_size : Nat) :
    Int × Arena × World :=
  let new_cap := grow_capacity arena min_size
  if sodium = true ∧ arena.secure ≠ 0 then
    let a := sodium_malloc w new_cap
    if a.1 = 0 then (-1, arena, a.2)
    else
      let b := malloc a.2 SIZEOF_ARENABLOCK
      if b.1 = 0 then (-1, arena, sodium_free b.2 a.1)
      else
        (0, { arena with blocks := arena.blocks ++
                [{ self := b.1, capacity := new_cap, used := 0, base := a.1 }] }, b.2)
  else
    let a := malloc w new_cap
    if a.1 = 0 then (-1, arena, a.2)
    else
      let b := malloc a.2 SIZEOF_ARENABLOCK
      if b.1 = 0 then (-1, arena, free b.2 a.1)
      else
        (0, { arena with blocks := arena.blocks ++
                [{ self := b.1, capacity := new_cap, used := 0, base := a.1 }] }, b.2)

/-! ## arena_alloc (a_memsuo.h 124-167) -/

/-- Lines 145-147 (and 157-159): the padding for `curr_ptr`, with bit masks. -/
def align_padding (curr_ptr align : Nat) : Nat :=
  if curr_ptr &&& wsub align 1 ≠ 0 then
    wsub align (curr_ptr &&& wsub align 1) &&& wsub align 1
  else 0

/-- Lines 161-166: hand out `curr_ptr + padding` from the block at position `i`
of the chain, advance its `used`, and zero the region unless `ARENA_NO_ZERO`
is set.  The zero-fill comes last, after the update of `used`; when the region
is not inside the buffer of the block it is an out-of-bounds write (`oob`). -/
def alloc_commit (w : World) (arena : Arena) (i : Nat) (curr_ptr padding total : Nat)
    (flags : Int) : Nat × Arena × World :=
  let block := arena.blocks.getD i default
  let out_ptr := wrap (curr_ptr + padding)
  let blocks := arena.blocks.set i { block with used := wrap (block.used + wrap (padding + total)) }
  let w1 := if Int.land flags ARENA_NO_ZERO ≠ 0 then w else zero_fill w block out_ptr total
  (out_ptr, { arena with blocks := blocks }, w1)

/-- Lines 143-166: place the request in the block at position `i`, or, when it
does not fit there, grow and place it in the last block of the grown chain. -/
def alloc_from (sodium : Bool) (w : World) (arena : Arena) (i : Nat) (total align : Nat)
    (flags : Int) : Nat × Arena × World :=
  let block := arena.blocks.getD i default
  let base_addr := block.base
  let curr_ptr := wrap (base_addr + block.used)
  let padding := align_padding curr_ptr align
  if wrap (wrap (block.used + padding) + total) > block.capacity then
    let g := arena_grow sodium w arena total
    if g.1 ≠ 0 then (0, g.2.1, g.2.2)
    else
      let j := g.2.1.blocks.length - 1
      let block := g.2.1.blocks.getD j default
      let base_addr := block.base
      let curr_ptr := wrap (base_addr + block.used)
      let padding := align_padding curr_ptr align
      alloc_commit g.2.2 g.2.1 j curr_ptr padding total flags
  else alloc_commit w arena i curr_ptr padding total flags

/-- Translation of `arena_alloc`.  The result is the returned pointer (0 is
NULL), the arena and the world. -/
def arena_alloc (sodium : Bool) (w : World) (arena : Arena) (size align count : Nat)
    (flags : Int) : Nat × Arena × World :=
  if count = 0 ∨ size = 0 then (0, arena, w)
  else
    let total := wrap (size * count)
    if count > SIZE_MAX / size then (0, arena, w)
    else if arena.blocks = [] then
      let g := arena_grow sodium w arena total
      if g.1 ≠ 0 then (0, g.2.1, g.2.2)
      else alloc_from sodium g.2.2 g.2.1 0 total align flags
    else alloc_from sodium w arena (arena.blocks.length - 1) total align flags

/-! ## arena_destroy (a_memsuo.h 240-258) -/

/-- The loop of `arena_destroy` over the remaining blocks. -/
def destroy_loop (sodium : Bool) (secure : Int) : World → List ArenaBlock → World
  | w, [] => w
  | w, block :: next =>
    let w1 := if sodium = true ∧ secure ≠ 0 then sodium_free w block.base else free w block.base
    destroy_loop sodium secure (free w1 block.self) next

/-- Translation of `arena_destroy`. -/
def arena_destroy (sodium : Bool) (w : World) (arena : Arena) : Arena × World :=
  ({ arena with blocks := [] }, destroy_loop sodium arena.secure w arena.blocks)

/-- A world whose memory is all `0xAA` bytes, with the given allocation answers. -/
def world_of (answers : List Nat) : World :=
  { answers := answers, init_answers := [], calls := [], mem := fun _ => 170 }

/-! ## Concrete runs

The plain provider (`malloc`) answers 16-byte aligned addresses of pairwise
disjoint buffers; block records are answered at 4096, 4128, 4160. -/

/-- Run 1, step 0: `arena_init(&a, 8, 0)`; the buffer of 8 bytes is at 64. -/
def spill_start : Int × Arena × World :=
  arena_init false (world_of [64, 4096, 1040, 4128, 1104, 4160]) 8 0

/-- Run 1, step 1: `arena_alloc(&a, 64, 64, 1, 0)`; the new buffer of 64 bytes
is at 1040. -/
def spill_first : Nat × Arena × World :=
  arena_alloc false spill_start.2.2 spill_start.2.1 64 64 1 0

/-- Run 1, step 2: `arena_alloc(&a, 16, 16, 1, 0)`; the new buffer of 128 bytes
is at 1104, right behind the previous one. -/
def spill_second : Nat × Arena × World :=
  arena_alloc false spill_first.2.2 spill_first.2.1 16 16 1 0

/-- Run 2: `arena_alloc(&a, 64, 64, 1, 0)` on a chain of one 8-byte block; the
new buffer is at 1040. -/
def overrun_alloc : Nat × Arena × World :=
  arena_alloc false (world_of [1040, 4128]) ⟨[⟨4096, 8, 0, 64⟩], 0⟩ 64 64 1 0

/-- Run 3: `arena_alloc(&a, SIZE_MAX - 3, 1, 1, ARENA_NO_ZERO)` on a 16-byte
block of which 8 bytes are used. -/
def wrapped_alloc : Nat × Arena × World :=
  arena_alloc false (world_of []) ⟨[⟨4096, 16, 8, 64⟩], 0⟩ (2 ^ 64 - 4) 1 1 1

/-- Run 4, step 0: `arena_init(&a, 0, 0)`. -/
def lazy_start : Int × Arena × World :=
  arena_init false (world_of [16, 4096, 48, 4128]) 0 0

/-- Run 4, step 1: `arena_alloc(&a, 1, 64, 1, 0)`; the buffers are at 16 and 48. -/
def lazy_alloc : Nat × Arena × World :=
  arena_alloc false lazy_start.2.2 lazy_start.2.1 1 64 1 0

/-- Run 5: `arena_alloc(&a, 128, 128, 1, 0)` on a full 32-byte block; the new
buffer is at 16400. -/
def oversize_alloc : Nat × Arena × World :=
  arena_alloc false (world_of [16400, 4128]) ⟨[⟨4096, 32, 32, 8192⟩], 0⟩ 128 128 1 0

/-- Run 6: `arena_alloc(&a, 24, 32, 1, 0)` on an empty chain; the buffers are at
1040 and 2064. -/
def twice_alloc : Nat × Arena × World :=
  arena_alloc false (world_of [1040, 4096, 2064, 4128]) ⟨[], 0⟩ 24 32 1 0

/-- Run 7: `arena_alloc(&a, 24, 32, 1, 0)` on an empty chain; `malloc(24)`
answers 1040, the block record is at 4096, and the next `malloc` answers NULL. -/
def halfway_alloc : Nat × Arena × World :=
  arena_alloc false (world_of [1040, 4096]) ⟨[], 0⟩ 24 32 1 0

/-- Run 8: `arena_alloc(&a, SIZE_MAX - 255, 1, 1, ARENA_NO_ZERO)` on a
1024-byte block at 8192 of which 512 bytes are used. -/
def shrink_alloc : Nat × Arena × World :=
  arena_alloc false (world_of []) ⟨[⟨4096, 1024, 512, 8192⟩], 0⟩ (2 ^ 64 - 256) 1 1 1

/-! ## Outcomes of lines 143-166 -/

/-- Run 10, step 0: `arena_init(&a, 0, 1)` in a build with `USE_LIBSODIUM`. -/
def unguarded_start : Int × Arena × World :=
  arena_init true (world_of [8192, 4096]) 0 1

/-- Run 10, step 1: `arena_alloc(&a, 16, 8, 1, 0)` on that secure arena. -/
def unguarded_alloc : Nat × Arena × World :=
  arena_alloc true unguarded_start.2.2 unguarded_start.2.1 16 8 1 0

/-- Run 11, step 0: `arena_init(&a, 128, 0)` on a heap that hands out chunks in
address order: the buffer is at 4112 and the block record behind it at 4256. -/
def wipe_start : Int × Arena × World :=
  arena_init false (world_of [4112, 4256, 4304, 4576]) 128 0

/-- Run 11, step 1: `arena_alloc(&a, 256, 64, 1, 0)`; the new buffer of 256
bytes is at 4304 (16 modulo 64) and the new block record behind it at 4576. -/
def wipe_alloc : Nat × Arena × World :=
  arena_alloc false wipe_start.2.2 wipe_start.2.1 256 64 1 0

/-- Run 11 again with the other flag: `arena_alloc(&a, 256, 64, 1, ARENA_NO_ZERO)`. -/
def keep_alloc : Nat × Arena × World :=
  arena_alloc false wipe_start.2.2 wipe_start.2.1 256 64 1 ARENA_NO_ZERO

/-- Run 8 again with the other flag: `arena_alloc(&a, SIZE_MAX - 255, 1, 1, 0)`
on a 1024-byte block at 8192 of which 512 bytes are used. -/
def fault_alloc : Nat × Arena × World :=
  arena_alloc false (world_of []) ⟨[⟨4096, 1024, 512, 8192⟩], 0⟩ (2 ^ 64 - 256) 1 1 0

/-- Run 12, step 0: `arena_init(&a, 8, 0)`; the buffer is at 1184 and the block
record at 1216, both right behind a chunk of 128 bytes at 1040 that the program
allocated before and frees after this call. -/
def hole_start : Int × Arena × World :=
  arena_init false (world_of [1184, 1216, 1040, 4128]) 8 0

/-- Run 12, step 1: `arena_alloc(&a, 128, 128, 1, 0)`; `malloc(128)` answers the
freed chunk at 1040 (16 modulo 128), the new block record is at 4128. -/
def hole_alloc : Nat × Arena × World :=
  arena_alloc false hole_start.2.2 hole_start.2.1 128 128 1 0

/-! ## Alignment macros (m_memsuo.h 109-110)

The macros are untyped.  `(align) - 1` and `~((align) - 1)` are computed in the
type of `align`, an integer type of `wa` bits (at least as wide as `int`),
signed when `sa`; the results are then converted to the type of the other
operand, `size_t` for `x` and `uintptr_t` for the cast pointer.  Values of the
type of `align` are given by their bit patterns. -/

theorem wrap_lt (n : Nat) : wrap n < 2 ^ 64 := Nat.mod_lt _ (by norm_num)

theorem wrap_of_lt {n : Nat} (h : n < 2 ^ 64) : wrap n = n := Nat.mod_eq_of_lt h

theorem wrap_mod_pow (n k : Nat) (hk : k ≤ 64) : wrap n % 2 ^ k = n % 2 ^ k := by
  unfold wrap
  exact Nat.mod_mod_of_dvd n (pow_dvd_pow 2 hk)

theorem wsub_of_le {a b : Nat} (hb : b ≤ a) (ha : a < 2 ^ 64) : wsub a b = a - b := by
  unfold wsub
  have h : a + 2 ^ 64 - b = (a - b) + 2 ^ 64 := by omega
  rw [h, Nat.add_mod_right]
  exact Nat.mod_eq_of_lt (by omega)

theorem pow_lt_word {k : Nat} (hk : k < 64) : 2 ^ k < 2 ^ 64 :=
  Nat.pow_lt_pow_right (by norm_num) hk

/-- For a power-of-two `align` the masks of `align_padding` compute
`(align - curr_ptr mod align) mod align`. -/
theorem align_padding_pow2 (c k : Nat) (hk : k < 64) :
    align_padding c (2 ^ k) = (2 ^ k - c % 2 ^ k) % 2 ^ k := by
  have hlt := pow_lt_word hk
  have hpos : 0 < 2 ^ k := Nat.pow_pos (by norm_num)
  have hmask : wsub (2 ^ k) 1 = 2 ^ k - 1 := wsub_of_le hpos hlt
  have hr : c % 2 ^ k < 2 ^ k := Nat.mod_lt _ hpos
  unfold align_padding
  rw [hmask, Nat.and_pow_two_sub_one_eq_mod, wsub_of_le (Nat.le_of_lt hr) hlt,
    Nat.and_pow_two_sub_one_eq_mod]
  split
  · rfl
  · rename_i h
    have h0 : c % 2 ^ k = 0 := by simpa using h
    simp [h0]

/-- The address `curr_ptr + padding` is a multiple of a power-of-two `align`. -/
theorem aligned_after_padding (c k : Nat) (hk : k < 64) :
    wrap (c + align_padding c (2 ^ k)) % 2 ^ k = 0 := by
  rw [wrap_mod_pow _ _ (Nat.le_of_lt hk), align_padding_pow2 c k hk]
  have hpos : 0 < 2 ^ k := Nat.pow_pos (by norm_num)
  have hr : c % 2 ^ k < 2 ^ k := Nat.mod_lt _ hpos
  by_cases h0 : c % 2 ^ k = 0
  · simp [h0, Nat.add_mod]
  · rw [Nat.mod_eq_of_lt (by omega : 2 ^ k - c % 2 ^ k < 2 ^ k)]
    have h1 : c + (2 ^ k - c % 2 ^ k) = 2 ^ k * (c / 2 ^ k + 1) := by
      have := Nat.div_add_mod c (2 ^ k)
      rw [Nat.mul_add, Nat.mul_one]
      omega
    rw [h1]
    exact Nat.mul_mod_right _ _

/-! ## Results of the building blocks -/

theorem alloc_commit_fst (w : World) (arena : Arena) (i c p t : Nat) (flags : Int) :
    (alloc_commit w arena i c p t flags).1 = wrap (c + p) := rfl

theorem alloc_from_aligned (sodium : Bool) (w : World) (arena : Arena) (i total k : Nat)
    (flags : Int) (hk : k < 64) :
    (alloc_from sodium w arena i total (2 ^ k) flags).1 % 2 ^ k = 0 := by
  unfold alloc_from
  simp only []
  split
  · split
    · rfl
    · rw [alloc_commit_fst]; exact aligned_after_padding _ k hk
  · rw [alloc_commit_fst]; exact aligned_after_padding _ k hk

theorem getD_concat_last (pre : List ArenaBlock) (t d : ArenaBlock) :
    (pre ++ [t]).getD ((pre ++ [t]).length - 1) d = t := by
  simp [List.getD_eq_getElem?_getD]

theorem set_concat_last (pre : List ArenaBlock) (t x : ArenaBlock) :
    (pre ++ [t]).set ((pre ++ [t]).length - 1) x = pre ++ [x] := by
  simp [List.set_append]

/-- The overflow test of `arena_alloc` passes exactly when the product fits. -/
theorem overflow_test_iff (size count : Nat) (hs : 0 < size) :
    count > SIZE_MAX / size ↔ SIZE_MAX < size * count := by
  rw [gt_iff_lt, Nat.div_lt_iff_lt_mul hs, Nat.mul_comm]

/-- When both allocations of `arena_grow` succeed it returns 0 and appends one
fresh block of capacity `grow_capacity`. -/
theorem arena_grow_ok (sodium : Bool) (w : World) (arena : Arena) (min_size p q : Nat)
    (rest : List Nat) (hans : w.answers = p :: q :: rest) (hp : p ≠ 0) (hq : q ≠ 0) :
    (arena_grow sodium w arena min_size).1 = 0 ∧
    (arena_grow sodium w arena min_size).2.1 =
      { blocks := arena.blocks ++
          [{ self := q, capacity := grow_capacity arena min_size, used := 0, base := p }],
        secure := arena.secure } ∧
    (arena_grow sodium w arena min_size).2.2.answers = rest := by
  unfold arena_grow
  simp only [malloc, sodium_malloc, hans, List.headD_cons, List.tail_cons, if_neg hp, if_neg hq]
  split <;> simp

/-- A request that passes the guards and fits in the tail block is placed
there: the general form shared by the placement claims. -/
theorem arena_alloc_fits (sodium : Bool) (w : World) (pre : List ArenaBlock) (t : ArenaBlock)
    (secure : Int) (size align count : Nat) (flags : Int) (k : Nat) (hk : k < 64)
    (halign : align = 2 ^ k) (hs : 0 < size) (hc : 0 < count) (hov : size * count ≤ SIZE_MAX)
    (hcap : t.capacity ≤ SIZE_MAX)
    (hfit : t.used + (align - (t.base + t.used) % align) % align + size * count ≤ t.capacity) :
    arena_alloc sodium w { blocks := pre ++ [t], secure := secure } size align count flags =
      (wrap (t.base + t.used + (align - (t.base + t.used) % align) % align),
       { blocks := pre ++ [{ t with used := t.used + (align - (t.base + t.used) % align) % align
                                        + size * count }],
         secure := secure },
       if Int.land flags ARENA_NO_ZERO ≠ 0 then w
       else zero_fill w t (wrap (t.base + t.used + (align - (t.base + t.used) % align) % align))
              (size * count)) := by
  subst halign
  have hM : SIZE_MAX = 2 ^ 64 - 1 := rfl
  have h64 : (0 : Nat) < 2 ^ 64 := by norm_num
  have htot : wrap (size * count) = size * count := wrap_of_lt (by omega)
  have hpad : align_padding (wrap (t.base + t.used)) (2 ^ k)
      = (2 ^ k - (t.base + t.used) % 2 ^ k) % 2 ^ k := by
    rw [align_padding_pow2 _ _ hk, wrap_mod_pow _ _ (Nat.le_of_lt hk)]
  have hnov : ¬ count > SIZE_MAX / size := by
    rw [overflow_test_iff size count hs]; omega
  have hne : ¬ (count = 0 ∨ size = 0) := by omega
  have hnil : ¬ (pre ++ [t] = []) := by simp
  unfold arena_alloc
  simp only [if_neg hne, if_neg hnov, if_neg hnil, htot]
  unfold alloc_from
  simp only [getD_concat_last, hpad]
  generalize hp : (2 ^ k - (t.base + t.used) % 2 ^ k) % 2 ^ k = pad at hfit ⊢
  have h1 : wrap (t.used + pad) = t.used + pad := wrap_of_lt (by omega)
  have h2 : wrap (t.used + pad + size * count) = t.used + pad + size * count :=
    wrap_of_lt (by omega)
  have hfit2 : ¬ (wrap (wrap (t.used + pad) + size * count) > t.capacity) := by
    rw [h1, h2]; omega
  rw [if_neg hfit2]
  unfold alloc_commit
  simp only [getD_concat_last, set_concat_last]
  have h3 : wrap (pad + size * count) = pad + size * count := wrap_of_lt (by omega)
  have h4 : wrap (wrap (t.base + t.used) + pad) = wrap (t.base + t.used + pad) := by
    unfold wrap; rw [Nat.mod_add_mod]
  rw [h3, h4, ← Nat.add_assoc, h2]

theorem grow_capacity_nil (arena : Arena) (min_size : Nat) (h : arena.blocks = []) :
    grow_capacity arena min_size = min_size := by
  simp [grow_capacity, h]

theorem grow_capacity_last (arena : Arena) (min_size : Nat) (last : ArenaBlock)
    (h : arena.blocks.getLast? = some last) :
    grow_capacity arena min_size = max (2 * last.capacity % 2 ^ 64) min_size := by
  simp only [grow_capacity, h, wrap, Nat.mul_comm last.capacity 2]
  split <;> omega

/-- The appended block is never smaller than the requested minimum. -/
theorem grow_capacity_ge (arena : Arena) (min_size : Nat) :
    min_size ≤ grow_capacity arena min_size := by
  unfold grow_capacity
  split
  · simp only []
    split <;> omega
  · exact Nat.le_refl _

theorem grow_capacity_le (arena : Arena) (min_size : Nat) (hmin : min_size ≤ SIZE_MAX) :
    grow_capacity arena min_size ≤ SIZE_MAX := by
  have hM : SIZE_MAX = 2 ^ 64 - 1 := rfl
  unfold grow_capacity
  split
  · rename_i last _
    have := wrap_lt (last.capacity * 2)
    simp only []
    split <;> omega
  · exact hmin

/-! ## Outcomes of growth and placement -/

/-- `arena_grow` either fails and leaves the arena alone, or appends one block. -/
theorem arena_grow_cases (sodium : Bool) (w : World) (arena : Arena) (min_size : Nat) :
    ((arena_grow sodium w arena min_size).1 = -1 ∧
      (arena_grow sodium w arena min_size).2.1 = arena) ∨
    ((arena_grow sodium w arena min_size).1 = 0 ∧ ∃ p q, p ≠ 0 ∧ q ≠ 0 ∧
      (arena_grow sodium w arena min_size).2.1 =
        ⟨arena.blocks ++ [⟨q, grow_capacity arena min_size, 0, p⟩], arena.secure⟩) := by
  unfold arena_grow
  simp only []
  split
  · split
    · exact Or.inl ⟨rfl, rfl⟩
    · rename_i hp
      split
      · exact Or.inl ⟨rfl, rfl⟩
      · rename_i hq
        exact Or.inr ⟨rfl, _, _, hp, hq, rfl⟩
  · split
    · exact Or.inl ⟨rfl, rfl⟩
    · rename_i hp
      split
      · exact Or.inl ⟨rfl, rfl⟩
      · rename_i hq
        exact Or.inr ⟨rfl, _, _, hp, hq, rfl⟩

/-- The calls made by the loop of `arena_destroy`: for each block, in chain
order, the release of its buffer and the `free` of its record. -/
theorem destroy_loop_calls (sodium : Bool) (secure : Int) (w : World) (bs : List ArenaBlock) :
    (destroy_loop sodium secure w bs).calls = w.calls ++ bs.flatMap (fun b =>
      [if sodium = true ∧ secure ≠ 0 then Call.sodium_free b.base else Call.free b.base,
       Call.free b.self]) := by
  induction bs generalizing w with
  | nil => simp [destroy_loop]
  | cons b bs ih =>
    simp only [destroy_loop, List.flatMap_cons]
    rw [ih]
    split <;> simp [free, sodium_free]

theorem alloc_commit_mem (w : World) (arena : Arena) (i c p total : Nat) (flags : Int)
    (hflag : Int.land flags ARENA_NO_ZERO = 0) (a : Nat) (h1 : wrap (c + p) ≤ a)
    (h2 : a < wrap (c + p) + total) :
    (alloc_commit w arena i c p total flags).2.2.mem a = 0 := by
  unfold alloc_commit
  simp only [hflag, ne_eq, not_true_eq_false, if_false, zero_fill, memset_zero]
  rw [if_pos ⟨h1, h2⟩]

theorem alloc_from_mem (sodium : Bool) (w : World) (arena : Arena) (i total align : Nat)
    (flags : Int) (hflag : Int.land flags ARENA_NO_ZERO = 0) (a : Nat) :
    (alloc_from sodium w arena i total align flags).1 ≠ 0 →
    (alloc_from sodium w arena i total align flags).1 ≤ a →
    a < (alloc_from sodium w arena i total align flags).1 + total →
    (alloc_from sodium w arena i total align flags).2.2.mem a = 0 := by
  unfold alloc_from
  simp only []
  split
  · split
    · intro h; exact absurd rfl h
    · intro _ h1 h2
      exact alloc_commit_mem _ _ _ _ _ _ _ hflag a h1 h2
  · intro _ h1 h2
    exact alloc_commit_mem _ _ _ _ _ _ _ hflag a h1 h2

/-! ## Successful creation and growth, with the world -/

theorem align_padding_lt (a k : Nat) (hk : k < 64) : align_padding a (2 ^ k) < 2 ^ k := by
  rw [align_padding_pow2 a k hk]
  exact Nat.mod_lt _ (Nat.pow_pos (by norm_num))

theorem align_padding_dvd (a k : Nat) (hk : k < 64) :
    (a + align_padding a (2 ^ k)) % 2 ^ k = 0 := by
  have h := aligned_after_padding a k hk
  rwa [wrap_mod_pow _ _ (Nat.le_of_lt hk)] at h

theorem align_padding_least (a k p : Nat) (hk : k < 64) (hp : (a + p) % 2 ^ k = 0) :
    align_padding a (2 ^ k) ≤ p := by
  have hpos : 0 < 2 ^ k := Nat.pow_pos (by norm_num)
  have hr : a % 2 ^ k < 2 ^ k := Nat.mod_lt _ hpos
  rw [align_padding_pow2 a k hk]
  by_cases h0 : a % 2 ^ k = 0
  · simp [h0]
  · rw [Nat.mod_eq_of_lt (by omega : 2 ^ k - a % 2 ^ k < 2 ^ k)]
    have hdvd : 2 ^ k ∣ a + p := Nat.dvd_of_mod_eq_zero hp
    have hdm := Nat.div_add_mod a (2 ^ k)
    have hsplit : a + p = 2 ^ k * (a / 2 ^ k) + (a % 2 ^ k + p) := by omega
    rw [hsplit] at hdvd
    have h2 : 2 ^ k ∣ a % 2 ^ k + p := (Nat.dvd_add_right (Nat.dvd_mul_right _ _)).mp hdvd
    have := Nat.le_of_dvd (by omega) h2
    omega

/-! ## Claims -/

/-- C1 (violated by the code): in run 1 every request is valid and succeeds and
the provider hands out pairwise disjoint buffers ([64,72), [1040,1104),
[1104,1232)), yet the regions [1088, 1088+64) and [1104, 1104+16) returned by
the two calls overlap: the first was placed past the end of its block. -/
theorem arena_alloc_regions_overlap :
    spill_start.1 = 0 ∧ spill_first.1 = 1088 ∧ spill_second.1 = 1104 ∧
    spill_second.2.2.calls
      = [Call.malloc 8, Call.malloc 32, Call.malloc 64, Call.malloc 32, Call.malloc 128,
         Call.malloc 32] ∧
    spill_second.2.1.blocks
      = [⟨4096, 8, 0, 64⟩, ⟨4128, 64, 112, 1040⟩, ⟨4160, 128, 16, 1104⟩] ∧
    (1088 ≤ 1104 ∧ 1104 < 1088 + 64 * 1) := by
  decide

/-- C2: every successful `arena_alloc` with a power-of-two `align` returns an
address that is a multiple of `align`, whether the request is placed in the
existing tail block or in a block appended by the same call. -/
theorem arena_alloc_aligned (sodium : Bool) (w : World) (arena : Arena)
    (size align count : Nat) (flags : Int) (k : Nat) (hk : k < 64) (halign : align = 2 ^ k)
    (hsucc : (arena_alloc sodium w arena size align count flags).1 ≠ 0) :
    (arena_alloc sodium w arena size align count flags).1 % align = 0 := by
  subst halign
  unfold arena_alloc
  simp only []
  split
  · rfl
  · split
    · rfl
    · split
      · split
        · rfl
        · exact alloc_from_aligned _ _ _ _ _ _ _ hk
      · exact alloc_from_aligned _ _ _ _ _ _ _ hk

/-- C5: when `count > 0` and `size > SIZE_MAX / count`, `arena_alloc` returns
NULL and leaves the arena and the world as they were: no provider call is made,
no block is appended and no byte of memory is written. -/
theorem arena_alloc_size_overflow (sodium : Bool) (w : World) (arena : Arena)
    (size align count : Nat) (flags : Int) (hc : 0 < count) (hov : size > SIZE_MAX / count) :
    arena_alloc sodium w arena size align count flags = (0, arena, w) := by
  have hprod : SIZE_MAX < size * count := by
    have := (Nat.div_lt_iff_lt_mul hc).mp hov
    simpa using this
  have hs : 0 < size := by
    rcases Nat.eq_zero_or_pos size with h | h
    · subst h; simp at hprod
    · exact h
  have h1 : ¬ (count = 0 ∨ size = 0) := by omega
  have h2 : count > SIZE_MAX / size := (overflow_test_iff size count hs).mpr hprod
  unfold arena_alloc
  simp only [if_neg h1, if_pos h2]

/-- Witness of C5: `size = 2 ^ 63`, `count = 2` on a one-block arena. -/
theorem arena_alloc_size_overflow_witness :
    arena_alloc false (world_of [9000]) ⟨[⟨4096, 64, 8, 1024⟩], 0⟩ (2 ^ 63) 8 2 0
      = (0, ⟨[⟨4096, 64, 8, 1024⟩], 0⟩, world_of [9000]) :=
  arena_alloc_size_overflow false (world_of [9000]) ⟨[⟨4096, 64, 8, 1024⟩], 0⟩ (2 ^ 63) 8 2 0
    (by decide) (by decide)

/-- C6: `arena_alloc` with `size == 0` or `count == 0` returns NULL and leaves
the arena (chain, every `used`, `secure`) and the world (no provider call, no
memory write) unchanged. -/
theorem arena_alloc_zero_request (sodium : Bool) (w : World) (arena : Arena)
    (size align count : Nat) (flags : Int) (h : size = 0 ∨ count = 0) :
    arena_alloc sodium w arena size align count flags = (0, arena, w) := by
  have h1 : count = 0 ∨ size = 0 := h.symm
  unfold arena_alloc
  simp only [if_pos h1]

/-- Witness of C6: the two requests of the spec, `(size=0, align=8, count=5)`
and `(size=8, align=8, count=0)`. -/
theorem arena_alloc_zero_request_witness :
    arena_alloc false (world_of [9000]) ⟨[⟨4096, 64, 8, 1024⟩], 0⟩ 0 8 5 0
      = (0, ⟨[⟨4096, 64, 8, 1024⟩], 0⟩, world_of [9000]) ∧
    arena_alloc false (world_of [9000]) ⟨[⟨4096, 64, 8, 1024⟩], 0⟩ 8 8 0 0
      = (0, ⟨[⟨4096, 64, 8, 1024⟩], 0⟩, world_of [9000]) :=
  ⟨arena_alloc_zero_request false (world_of [9000]) ⟨[⟨4096, 64, 8, 1024⟩], 0⟩ 0 8 5 0
      (Or.inl rfl),
   arena_alloc_zero_request false (world_of [9000]) ⟨[⟨4096, 64, 8, 1024⟩], 0⟩ 8 8 0 0
      (Or.inr rfl)⟩

/-- C7 (as stated, refuted): on a 1024-byte block the request
`(size=0, align=8, count=5)` satisfies `used + padding + size*count <= capacity`,
yet `arena_alloc` returns NULL, not `base + used + padding`, and `used` stays. -/
theorem arena_alloc_in_tail_counterexample :
    (0 + (8 - (8192 + 0) % 8) % 8 + 0 * 5 ≤ 1024) ∧
    (arena_alloc false (world_of [9000]) ⟨[⟨4096, 1024, 0, 8192⟩], 0⟩ 0 8 5 0).1 = 0 ∧
    (arena_alloc false (world_of [9000]) ⟨[⟨4096, 1024, 0, 8192⟩], 0⟩ 0 8 5 0).1
      ≠ 8192 + 0 + (8 - (8192 + 0) % 8) % 8 := by
  decide

/-- C7 (amended): for a request with `size > 0`, `count > 0`, `size*count` not
overflowing and `align` a power of two, on an arena whose tail block `t`
satisfies `used + padding + size*count <= capacity` (padding the alignment
padding of `base + used`), `arena_alloc` appends no block and makes no provider
call, returns `base + used + padding` of the tail (reduced modulo `2 ^ 64`, and
exactly that sum when the buffer lies in the address space), and increases the
tail's `used` by exactly `padding + size*count`, all other blocks unchanged. -/
theorem arena_alloc_in_tail (sodium : Bool) (w : World) (pre : List ArenaBlock) (t : ArenaBlock)
    (secure : Int) (size align count : Nat) (flags : Int) (k : Nat) (hk : k < 64)
    (halign : align = 2 ^ k) (hs : 0 < size) (hc : 0 < count) (hov : size * count ≤ SIZE_MAX)
    (hcap : t.capacity ≤ SIZE_MAX)
    (hfit : t.used + (align - (t.base + t.used) % align) % align + size * count ≤ t.capacity) :
    (arena_alloc sodium w ⟨pre ++ [t], secure⟩ size align count flags).1
      = wrap (t.base + t.used + (align - (t.base + t.used) % align) % align) ∧
    (t.base + t.capacity ≤ 2 ^ 64 →
      (arena_alloc sodium w ⟨pre ++ [t], secure⟩ size align count flags).1
        = t.base + t.used + (align - (t.base + t.used) % align) % align) ∧
    (arena_alloc sodium w ⟨pre ++ [t], secure⟩ size align count flags).2.1
      = ⟨pre ++ [{ t with used := t.used + (align - (t.base + t.used) % align) % align
                              + size * count }], secure⟩ ∧
    (arena_alloc sodium w ⟨pre ++ [t], secure⟩ size align count flags).2.2.calls = w.calls ∧
    (arena_alloc sodium w ⟨pre ++ [t], secure⟩ size align count flags).2.2.answers
      = w.answers := by
  rw [arena_alloc_fits sodium w pre t secure size align count flags k hk halign hs hc hov hcap
    hfit]
  refine ⟨rfl, ?_, rfl, ?_, ?_⟩
  · intro hb
    have hpos : 0 < size * count := Nat.mul_pos hs hc
    exact wrap_of_lt (by omega)
  · show (if Int.land flags ARENA_NO_ZERO ≠ 0 then w else zero_fill w _ _ _).calls = w.calls
    split <;> rfl
  · show (if Int.land flags ARENA_NO_ZERO ≠ 0 then w else zero_fill w _ _ _).answers
      = w.answers
    split <;> rfl

/-- Witness of C7, the run of test_arena.c: in a 1024-byte block at 8192, ten
`int`s are placed at 8192 (`used` 40), then fifty `char`s at 8232 (`used` 90). -/
theorem arena_alloc_in_tail_witness :
    ((arena_alloc false (world_of [9000]) ⟨[⟨4096, 1024, 0, 8192⟩], 0⟩ 4 4 10 0).1 = 8192 ∧
     (arena_alloc false (world_of [9000]) ⟨[⟨4096, 1024, 0, 8192⟩], 0⟩ 4 4 10 0).2.1
        = ⟨[⟨4096, 1024, 40, 8192⟩], 0⟩) ∧
    ((arena_alloc false (world_of [9000]) ⟨[⟨4096, 1024, 40, 8192⟩], 0⟩ 1 1 50 0).1 = 8232 ∧
     (arena_alloc false (world_of [9000]) ⟨[⟨4096, 1024, 40, 8192⟩], 0⟩ 1 1 50 0).2.1
        = ⟨[⟨4096, 1024, 90, 8192⟩], 0⟩) :=
  ⟨⟨(arena_alloc_in_tail false (world_of [9000]) [] ⟨4096, 1024, 0, 8192⟩ 0 4 4 10 0 2
        (by decide) (by decide) (by decide) (by decide) (by decide) (by decide)
        (by decide)).2.1 (by decide),
    (arena_alloc_in_tail false (world_of [9000]) [] ⟨4096, 1024, 0, 8192⟩ 0 4 4 10 0 2
        (by decide) (by decide) (by decide) (by decide) (by decide) (by decide)
        (by decide)).2.2.1⟩,
   ⟨(arena_alloc_in_tail false (world_of [9000]) [] ⟨4096, 1024, 40, 8192⟩ 0 1 1 50 0 0
        (by decide) (by decide) (by decide) (by decide) (by decide) (by decide)
        (by decide)).2.1 (by decide),
    (arena_alloc_in_tail false (world_of [9000]) [] ⟨4096, 1024, 40, 8192⟩ 0 1 1 50 0 0
        (by decide) (by decide) (by decide) (by decide) (by decide) (by decide)
        (by decide)).2.2.1⟩⟩

/-- Witness of C2: a request placed in the tail block (at 8232) and a request
placed in a block appended by the call, whose buffer at 1040 is not 64-aligned
(returned address 1088). -/
theorem arena_alloc_aligned_witness :
    ((arena_alloc false (world_of [9000]) ⟨[⟨4096, 1024, 37, 8192⟩], 0⟩ 4 8 2 0).1 ≠ 0 ∧
     (arena_alloc false (world_of [9000]) ⟨[⟨4096, 1024, 37, 8192⟩], 0⟩ 4 8 2 0).1 % 8 = 0) ∧
    ((arena_alloc false (world_of [1040, 4128]) ⟨[⟨4096, 8, 0, 64⟩], 0⟩ 64 64 1 0).1 ≠ 0 ∧
     (arena_alloc false (world_of [1040, 4128]) ⟨[⟨4096, 8, 0, 64⟩], 0⟩ 64 64 1 0).1 % 64
        = 0) :=
  ⟨⟨by decide,
    arena_alloc_aligned false (world_of [9000]) ⟨[⟨4096, 1024, 37, 8192⟩], 0⟩ 4 8 2 0 3
      (by decide) (by decide) (by decide)⟩,
   ⟨by decide,
    arena_alloc_aligned false (world_of [1040, 4128]) ⟨[⟨4096, 8, 0, 64⟩], 0⟩ 64 64 1 0 6
      (by decide) (by decide) (by decide)⟩⟩

/-- C8 (as stated, refuted): (a) after a last block of capacity `2 ^ 63`,
`arena_grow(1)` appends a block of capacity 1, not `max(2 * 2 ^ 63, 1)`;
(b) after `arena_grow(1)` on an empty chain (new block of capacity 1 at 64), the
next `arena_alloc` of 100 bytes is not placed in that block but at 1024, in a
further block. -/
theorem arena_grow_appends_counterexample :
    ((arena_grow false (world_of [16384, 4128]) ⟨[⟨4096, 2 ^ 63, 0, 2 ^ 62⟩], 0⟩ 1).1 = 0 ∧
     (arena_grow false (world_of [16384, 4128]) ⟨[⟨4096, 2 ^ 63, 0, 2 ^ 62⟩], 0⟩ 1).2.1.blocks
        = [⟨4096, 2 ^ 63, 0, 2 ^ 62⟩, ⟨4128, 1, 0, 16384⟩] ∧
     (1 : Nat) ≠ max (2 * 2 ^ 63) 1) ∧
    ((arena_grow false (world_of [64, 4096, 1024, 4128]) ⟨[], 0⟩ 1).1 = 0 ∧
     (arena_grow false (world_of [64, 4096, 1024, 4128]) ⟨[], 0⟩ 1).2.1.blocks
        = [⟨4096, 1, 0, 64⟩] ∧
     (arena_alloc false (arena_grow false (world_of [64, 4096, 1024, 4128]) ⟨[], 0⟩ 1).2.2
        (arena_grow false (world_of [64, 4096, 1024, 4128]) ⟨[], 0⟩ 1).2.1 100 1 1 0).1 = 1024 ∧
     ¬ (64 ≤ 1024 ∧ 1024 < 64 + 1)) := by
  decide

/-- C8 (amended): when both allocations of the provider succeed, `arena_grow`
returns 0 and appends exactly one block at the tail, with `used == 0` and
capacity `min_size` on an empty chain, otherwise
`max((2 * last capacity) mod 2 ^ 64, min_size)`, which is
`max(2 * last capacity, min_size)` whenever the doubling does not overflow; the
new block is the tail, and the next `arena_alloc` whose request (`size > 0`,
`count > 0`, no overflow, power-of-two `align`) fits in it is placed in it. -/
theorem arena_grow_appends (sodium : Bool) (w : World) (arena : Arena) (min_size p q : Nat)
    (rest : List Nat) (hmin : min_size ≤ SIZE_MAX) (hans : w.answers = p :: q :: rest)
    (hp : p ≠ 0) (hq : q ≠ 0) :
    (arena_grow sodium w arena min_size).1 = 0 ∧
    (arena_grow sodium w arena min_size).2.1
      = ⟨arena.blocks ++ [⟨q, grow_capacity arena min_size, 0, p⟩], arena.secure⟩ ∧
    (arena.blocks = [] → grow_capacity arena min_size = min_size) ∧
    (∀ last, arena.blocks.getLast? = some last →
      grow_capacity arena min_size = max (2 * last.capacity % 2 ^ 64) min_size ∧
      (2 * last.capacity ≤ SIZE_MAX →
        grow_capacity arena min_size = max (2 * last.capacity) min_size)) ∧
    (∀ (w1 : World) (size align count : Nat) (flags : Int) (k : Nat), k < 64 → align = 2 ^ k →
      0 < size → 0 < count → size * count ≤ SIZE_MAX →
      (align - p % align) % align + size * count ≤ grow_capacity arena min_size →
      (arena_alloc sodium w1 (arena_grow sodium w arena min_size).2.1 size align count flags).1
        = wrap (p + (align - p % align) % align) ∧
      (arena_alloc sodium w1 (arena_grow sodium w arena min_size).2.1 size align count
          flags).2.1
        = ⟨arena.blocks ++ [⟨q, grow_capacity arena min_size,
              (align - p % align) % align + size * count, p⟩], arena.secure⟩) := by
  obtain ⟨h0, h1, _⟩ := arena_grow_ok sodium w arena min_size p q rest hans hp hq
  refine ⟨h0, h1, grow_capacity_nil arena min_size, ?_, ?_⟩
  · intro last hlast
    refine ⟨grow_capacity_last arena min_size last hlast, ?_⟩
    intro hle
    have hM : SIZE_MAX = 2 ^ 64 - 1 := rfl
    rw [grow_capacity_last arena min_size last hlast, Nat.mod_eq_of_lt (by omega)]
  · intro w1 size align count flags k hk halign hs hc hov hfit
    rw [h1]
    have hfits := arena_alloc_fits sodium w1 arena.blocks
      ⟨q, grow_capacity arena min_size, 0, p⟩ arena.secure size align count flags k hk halign
      hs hc hov (grow_capacity_le arena min_size hmin) (by simpa using hfit)
    rw [hfits]
    simp

/-- Witness of C8: after a last block of capacity 64, `arena_grow(64)` appends a
block of capacity 128 at the address the provider answered, and a following
request of ten `int`s is placed at the start of that block. -/
theorem arena_grow_appends_witness :
    (arena_grow false (world_of [16384, 4128]) ⟨[⟨4096, 64, 40, 8192⟩], 0⟩ 64).1 = 0 ∧
    (arena_grow false (world_of [16384, 4128]) ⟨[⟨4096, 64, 40, 8192⟩], 0⟩ 64).2.1
      = ⟨[⟨4096, 64, 40, 8192⟩, ⟨4128, 128, 0, 16384⟩], 0⟩ ∧
    (arena_alloc false (world_of [9000])
        (arena_grow false (world_of [16384, 4128]) ⟨[⟨4096, 64, 40, 8192⟩], 0⟩ 64).2.1
        4 4 10 0).1 = 16384 ∧
    (arena_alloc false (world_of [9000])
        (arena_grow false (world_of [16384, 4128]) ⟨[⟨4096, 64, 40, 8192⟩], 0⟩ 64).2.1
        4 4 10 0).2.1 = ⟨[⟨4096, 64, 40, 8192⟩, ⟨4128, 128, 40, 16384⟩], 0⟩ :=
  ⟨(arena_grow_appends false (world_of [16384, 4128]) ⟨[⟨4096, 64, 40, 8192⟩], 0⟩ 64 16384 4128
      [] (by decide) rfl (by decide) (by decide)).1,
   (arena_grow_appends false (world_of [16384, 4128]) ⟨[⟨4096, 64, 40, 8192⟩], 0⟩ 64 16384 4128
      [] (by decide) rfl (by decide) (by decide)).2.1,
   (arena_grow_appends false (world_of [16384, 4128]) ⟨[⟨4096, 64, 40, 8192⟩], 0⟩ 64 16384 4128
      [] (by decide) rfl (by decide) (by decide)).2.2.2.2 (world_of [9000]) 4 4 10 0 2
      (by decide) (by decide) (by decide) (by decide) (by decide) (by decide)⟩

/-- C3 (violated by the code): in run 2 the returned pointer 1088 lies in the
appended block [1040, 1104) but that block ends with `used = 112 > capacity = 64`,
so no block of the chain satisfies the claim; in run 3 the fit test wraps around,
the call succeeds with pointer 72 and leaves `used = 4 < (72 - 64) + size*count`. -/
theorem arena_alloc_outside_block :
    (overrun_alloc.1 = 1088 ∧
     overrun_alloc.2.1.blocks = [⟨4096, 8, 0, 64⟩, ⟨4128, 64, 112, 1040⟩] ∧
     ¬ ∃ b ∈ overrun_alloc.2.1.blocks,
        b.base ≤ 1088 ∧ 1088 < b.base + b.capacity ∧
        (1088 - b.base) + 64 * 1 ≤ b.used ∧ b.used ≤ b.capacity) ∧
    (wrapped_alloc.1 = 72 ∧
     wrapped_alloc.2.1.blocks = [⟨4096, 16, 4, 64⟩] ∧
     ¬ ∃ b ∈ wrapped_alloc.2.1.blocks,
        b.base ≤ 72 ∧ 72 < b.base + b.capacity ∧
        (72 - b.base) + (2 ^ 64 - 4) * 1 ≤ b.used ∧ b.used ≤ b.capacity) := by
  decide

/-- C4 (violated by the code): run 4, `arena_init(0)` followed by one
`arena_alloc(size=1, align=64, count=1)`, reaches a chain whose last block has
`used = 17 > capacity = 2`. -/
theorem arena_alloc_used_exceeds_capacity :
    lazy_start.1 = 0 ∧ lazy_alloc.1 = 64 ∧
    lazy_alloc.2.1.blocks = [⟨4096, 1, 0, 16⟩, ⟨4128, 2, 17, 48⟩] ∧
    ¬ ∀ b ∈ lazy_alloc.2.1.blocks, b.used ≤ b.capacity := by
  decide

/-- C9 (violated by the code): in run 5 the request triggers growth, the
provider succeeds, and the appended block has capacity 128 at 16400; the padding
is 112, so padding plus `size*count` is 240 > 128 and the returned region
[16512, 16640) runs past the end 16528 of the new block. -/
theorem arena_alloc_growth_overruns :
    oversize_alloc.1 = 16512 ∧
    oversize_alloc.2.1.blocks = [⟨4096, 32, 32, 8192⟩, ⟨4128, 128, 240, 16400⟩] ∧
    oversize_alloc.2.2.calls = [Call.malloc 128, Call.malloc 32] ∧
    ¬ ((16512 - 16400) + 128 * 1 ≤ 128) ∧
    16400 + 128 < 16512 + 128 * 1 := by
  decide

/-- C10 (violated by the code): in run 6 a single `arena_alloc` on an empty
chain appends two blocks: the first, of capacity 24 at the 16-aligned address
1040, cannot hold 16 bytes of padding plus 24 bytes, so the call grows again. -/
theorem arena_alloc_appends_two_blocks :
    twice_alloc.1 = 2080 ∧
    twice_alloc.2.1.blocks = [⟨4096, 24, 0, 1040⟩, ⟨4128, 48, 40, 2064⟩] ∧
    twice_alloc.2.2.calls
      = [Call.malloc 24, Call.malloc 32, Call.malloc 48, Call.malloc 32] ∧
    ¬ (twice_alloc.2.1.blocks.length ≤ ([] : List ArenaBlock).length + 1) := by
  decide

/-- C11 (violated by the code): in run 7 the provider fails during the growth
the call needs (its second `arena_grow`), `arena_alloc` returns NULL, but the
chain is not as it was before the call: it was empty and now holds the block
appended by the first `arena_grow` of the same call. -/
theorem arena_alloc_failure_leaves_block :
    halfway_alloc.1 = 0 ∧
    halfway_alloc.2.1.blocks = [⟨4096, 24, 0, 1040⟩] ∧
    halfway_alloc.2.2.calls = [Call.malloc 24, Call.malloc 32, Call.malloc 48] ∧
    (arena_grow false (world_of []) ⟨[⟨4096, 24, 0, 1040⟩], 0⟩ 24).1 = -1 ∧
    halfway_alloc.2.1.blocks ≠ ([] : List ArenaBlock) := by
  decide

/-- C15: a second `arena_destroy` makes no call at all (the world, and with it
the log of release calls, is unchanged) and leaves the arena equal to the state
after the first call. -/
theorem arena_destroy_idempotent (sodium : Bool) (w w1 : World) (arena : Arena) :
    arena_destroy sodium w1 (arena_destroy sodium w arena).1
      = ((arena_destroy sodium w arena).1, w1) := rfl

/-- C18 (violated by the code): in run 8 the sum of the fit test wraps around,
the call succeeds with pointer 8704 and the block's `used` goes from 512 down
to 256. -/
theorem arena_alloc_used_decreases :
    shrink_alloc.1 = 8704 ∧
    shrink_alloc.2.1.blocks = [⟨4096, 1024, 256, 8192⟩] ∧
    ¬ ∀ b ∈ shrink_alloc.2.1.blocks, 512 ≤ b.used := by
  decide

/-- C20: `arena_init` stores the secure flag; with `initial_size == 0` it
returns 0 with an empty chain and the world untouched (no provider call); with
`initial_size > 0` and the provider succeeding it returns 0 with exactly one
block of capacity `initial_size` and `used` 0; when the provider fails
(`sodium_init` negative in guarded mode, or either allocation NULL) it returns
-1 with an empty chain; there is no other result. -/
theorem arena_init_result (sodium : Bool) (w : World) (initial_size : Nat) (secure_flag : Int) :
    (arena_init sodium w initial_size secure_flag).2.1.secure = secure_flag ∧
    (initial_size = 0 →
      arena_init sodium w initial_size secure_flag = (0, ⟨[], secure_flag⟩, w)) ∧
    (∀ p q rest, initial_size ≠ 0 → w.answers = p :: q :: rest → p ≠ 0 → q ≠ 0 →
      (sodium = true ∧ secure_flag ≠ 0 → 0 ≤ w.init_answers.headD 0) →
      (arena_init sodium w initial_size secure_flag).1 = 0 ∧
      (arena_init sodium w initial_size secure_flag).2.1
        = ⟨[⟨q, initial_size, 0, p⟩], secure_flag⟩) ∧
    (initial_size ≠ 0 →
      ((sodium = true ∧ secure_flag ≠ 0 ∧ w.init_answers.headD 0 < 0) ∨
        w.answers.headD 0 = 0 ∨ w.answers.tail.headD 0 = 0) →
      (arena_init sodium w initial_size secure_flag).1 = -1 ∧
      (arena_init sodium w initial_size secure_flag).2.1 = ⟨[], secure_flag⟩) ∧
    ((arena_init sodium w initial_size secure_flag).1 = 0 ∨
      ((arena_init sodium w initial_size secure_flag).1 = -1 ∧
       (arena_init sodium w initial_size secure_flag).2.1.blocks = [])) := by
  refine ⟨?_, ?_, ?_, ?_, ?_⟩
  · unfold arena_init
    simp only []
    repeat' split
    all_goals rfl
  · intro h
    unfold arena_init
    simp only [if_pos h]
  · intro p q rest hn hans hp hq hinit
    unfold arena_init
    simp only [if_neg hn, malloc, sodium_malloc, sodium_init, hans, List.headD_cons,
      List.tail_cons, if_neg hp, if_neg hq]
    split
    · rename_i hc
      have := hinit hc
      rw [if_neg (by omega)]
      exact ⟨rfl, rfl⟩
    · exact ⟨rfl, rfl⟩
  · intro hn hfail
    unfold arena_init
    simp only [if_neg hn, malloc, sodium_malloc, sodium_init]
    split
    · rename_i hc
      split
      · exact ⟨rfl, rfl⟩
      · rename_i hi
        rcases hfail with h | h | h
        · exact absurd h.2.2 hi
        · rw [if_pos h]; exact ⟨rfl, rfl⟩
        · split
          · exact ⟨rfl, rfl⟩
          · exact ⟨rfl, rfl⟩
    · rename_i hc
      rcases hfail with h | h | h
      · exact absurd ⟨h.1, h.2.1⟩ hc
      · rw [if_pos h]; exact ⟨rfl, rfl⟩
      · split
        · exact ⟨rfl, rfl⟩
        · exact ⟨rfl, rfl⟩
  · unfold arena_init
    simp only []
    repeat' split
    all_goals first | exact Or.inl rfl | exact Or.inr ⟨rfl, rfl⟩

/-- Witness of C20: `arena_init(&a, 1024, 0)` with the provider answering 8192
and 4096, and `arena_init(&a, 1024, 1)` under libsodium with `sodium_init`
failing. -/
theorem arena_init_result_witness :
    ((arena_init false (world_of [8192, 4096]) 1024 0).1 = 0 ∧
     (arena_init false (world_of [8192, 4096]) 1024 0).2.1 = ⟨[⟨4096, 1024, 0, 8192⟩], 0⟩) ∧
    ((arena_init true { world_of [8192, 4096] with init_answers := [-1] } 1024 1).1 = -1 ∧
     (arena_init true { world_of [8192, 4096] with init_answers := [-1] } 1024 1).2.1
        = ⟨[], 1⟩) :=
  ⟨(arena_init_result false (world_of [8192, 4096]) 1024 0).2.2.1 8192 4096 [] (by decide) rfl
      (by decide) (by decide) (by decide),
   (arena_init_result true { world_of [8192, 4096] with init_answers := [-1] } 1024 1).2.2.2.1
      (by decide) (Or.inl (by decide))⟩

/-- C16 (as stated, refuted): in a build without `USE_LIBSODIUM` the buffer of
a secure arena (`secure = 1`) is released with plain `free`; there is no
guarded release. -/
theorem arena_destroy_releases_counterexample :
    (⟨[⟨4096, 64, 0, 8192⟩], 1⟩ : Arena).secure ≠ 0 ∧
    (arena_destroy false (world_of []) ⟨[⟨4096, 64, 0, 8192⟩], 1⟩).2.calls
      = [Call.free 8192, Call.free 4096] ∧
    Call.sodium_free 8192 ∉
      (arena_destroy false (world_of []) ⟨[⟨4096, 64, 0, 8192⟩], 1⟩).2.calls := by
  decide

/-- C16 (amended): one `arena_destroy` call releases, in chain order, exactly
the base buffer of each block of the chain, once each (followed by the `free`
of the block record), through the guarded release when the arena is secure and
the build has `USE_LIBSODIUM`, through plain `free` otherwise; `arena_grow` and
`arena_init` obtain the buffers under the same condition from the matching
provider. -/
theorem arena_destroy_releases (sodium : Bool) (w : World) (arena : Arena) :
    (arena_destroy sodium w arena).2.calls = w.calls ++ arena.blocks.flatMap (fun b =>
      [if sodium = true ∧ arena.secure ≠ 0 then Call.sodium_free b.base
       else Call.free b.base, Call.free b.self]) ∧
    (∀ (w0 : World) (min_size : Nat), (arena_grow sodium w0 arena min_size).1 = 0 →
      (arena_grow sodium w0 arena min_size).2.2.calls = w0.calls ++
        [if sodium = true ∧ arena.secure ≠ 0
           then Call.sodium_malloc (grow_capacity arena min_size)
           else Call.malloc (grow_capacity arena min_size),
         Call.malloc SIZEOF_ARENABLOCK]) ∧
    (∀ (w0 : World) (n : Nat), n ≠ 0 → (arena_init sodium w0 n arena.secure).1 = 0 →
      (arena_init sodium w0 n arena.secure).2.2.calls = w0.calls ++
        (if sodium = true ∧ arena.secure ≠ 0
           then [Call.sodium_init, Call.sodium_malloc n, Call.malloc SIZEOF_ARENABLOCK]
           else [Call.malloc n, Call.malloc SIZEOF_ARENABLOCK])) := by
  refine ⟨destroy_loop_calls sodium arena.secure w arena.blocks, ?_, ?_⟩
  · intro w0 min_size
    unfold arena_grow
    simp only [malloc, sodium_malloc, free, sodium_free]
    split
    · split
      · intro h; exact absurd (show (-1 : Int) = 0 from h) (by decide)
      · split
        · intro h; exact absurd (show (-1 : Int) = 0 from h) (by decide)
        · intro _; simp
    · split
      · intro h; exact absurd (show (-1 : Int) = 0 from h) (by decide)
      · split
        · intro h; exact absurd (show (-1 : Int) = 0 from h) (by decide)
        · intro _; simp
  · intro w0 n hn
    unfold arena_init
    simp only [if_neg hn, malloc, sodium_malloc, sodium_init, free, sodium_free]
    split
    · split
      · intro h; exact absurd (show (-1 : Int) = 0 from h) (by decide)
      · split
        · intro h; exact absurd (show (-1 : Int) = 0 from h) (by decide)
        · split
          · intro h; exact absurd (show (-1 : Int) = 0 from h) (by decide)
          · intro _; simp
    · split
      · intro h; exact absurd (show (-1 : Int) = 0 from h) (by decide)
      · split
        · intro h; exact absurd (show (-1 : Int) = 0 from h) (by decide)
        · intro _; simp

/-- Witness of C16: a secure arena under libsodium, grown once and destroyed. -/
theorem arena_destroy_releases_witness :
    (arena_grow true (world_of [16384, 4128]) ⟨[⟨4096, 64, 40, 8192⟩], 1⟩ 64).2.2.calls
      = [Call.sodium_malloc 128, Call.malloc 32] ∧
    (arena_destroy true (world_of [])
        ⟨[⟨4096, 64, 40, 8192⟩, ⟨4128, 128, 0, 16384⟩], 1⟩).2.calls
      = [Call.sodium_free 8192, Call.free 4096, Call.sodium_free 16384, Call.free 4128] :=
  ⟨(arena_destroy_releases true (world_of []) ⟨[⟨4096, 64, 40, 8192⟩], 1⟩).2.1
      (world_of [16384, 4128]) 64 (by decide),
   (arena_destroy_releases true (world_of [])
      ⟨[⟨4096, 64, 40, 8192⟩, ⟨4128, 128, 0, 16384⟩], 1⟩).1⟩

/-- C17: after a successful `arena_alloc` whose flags do not contain
`ARENA_NO_ZERO`, every byte of the returned region of `size*count` bytes reads
as zero, whatever memory held before. -/
theorem arena_alloc_zero_filled (sodium : Bool) (w : World) (arena : Arena)
    (size align count : Nat) (flags : Int) (hflag : Int.land flags ARENA_NO_ZERO = 0) (a : Nat) :
    (arena_alloc sodium w arena size align count flags).1 ≠ 0 →
    (arena_alloc sodium w arena size align count flags).1 ≤ a →
    a < (arena_alloc sodium w arena size align count flags).1 + size * count →
    (arena_alloc sodium w arena size align count flags).2.2.mem a = 0 := by
  have hM : SIZE_MAX = 2 ^ 64 - 1 := rfl
  unfold arena_alloc
  by_cases h0 : count = 0 ∨ size = 0
  · rw [if_pos h0]; intro h; exact absurd rfl h
  · simp only [if_neg h0]
    by_cases hov : count > SIZE_MAX / size
    · rw [if_pos hov]; intro h; exact absurd rfl h
    · simp only [if_neg hov]
      have hs : 0 < size := by omega
      have hle : size * count ≤ SIZE_MAX := by
        have := (overflow_test_iff size count hs).not.mp hov
        omega
      have htot : wrap (size * count) = size * count := wrap_of_lt (by omega)
      rw [htot]
      split
      · split
        · intro h; exact absurd rfl h
        · exact alloc_from_mem _ _ _ _ _ _ _ hflag a
      · exact alloc_from_mem _ _ _ _ _ _ _ hflag a

/-- Witness of C17: ten `int`s allocated with flags 0 in a block at 8192 whose
memory held `0xAA`; the byte at 8200 reads zero afterwards. -/
theorem arena_alloc_zero_filled_witness :
    (world_of [9000]).mem 8200 = 170 ∧
    (arena_alloc false (world_of [9000]) ⟨[⟨4096, 1024, 0, 8192⟩], 0⟩ 4 4 10 0).2.2.mem 8200
      = 0 :=
  ⟨rfl, arena_alloc_zero_filled false (world_of [9000]) ⟨[⟨4096, 1024, 0, 8192⟩], 0⟩ 4 4 10 0
    (by decide) 8200 (by decide) (by decide) (by decide)⟩

/-- C21 (violated by the code): in run 10, a build with `USE_LIBSODIUM`,
`arena_init(&a, 0, 1)` returns 0 without calling `sodium_init`, and the first
`arena_alloc` on that secure arena requests guarded memory (`sodium_malloc(16)`)
although `sodium_init` was never invoked. -/
theorem secure_alloc_without_init :
    unguarded_start.1 = 0 ∧ unguarded_start.2.1 = ⟨[], 1⟩ ∧
    unguarded_start.2.2.calls = [] ∧
    unguarded_alloc.1 = 8192 ∧
    unguarded_alloc.2.2.calls = [Call.sodium_malloc 16, Call.malloc 32] ∧
    Call.sodium_init ∉ unguarded_alloc.2.2.calls := by
  decide

/-- C22: for every address `a` and every power-of-two `align = 2^k` of type
`size_t`, the padding `arena_alloc` computes with bit masks equals
`(align - a mod align) mod align`, is less than `align`, makes `a + padding` a
multiple of `align`, and is the least `p` with `(a + p) mod align == 0`. -/
theorem align_padding_exact (a k : Nat) (hk : k < 64) :
    align_padding a (2 ^ k) = (2 ^ k - a % 2 ^ k) % 2 ^ k ∧
    align_padding a (2 ^ k) < 2 ^ k ∧
    (a + align_padding a (2 ^ k)) % 2 ^ k = 0 ∧
    ∀ p, (a + p) % 2 ^ k = 0 → align_padding a (2 ^ k) ≤ p :=
  ⟨align_padding_pow2 a k hk, align_padding_lt a k hk, align_padding_dvd a k hk,
    fun p hp => align_padding_least a k p hk hp⟩

/-- Witness of C22: address 1040 and `align = 64`: the padding is 48. -/
theorem align_padding_exact_witness :
    align_padding 1040 (2 ^ 6) = (2 ^ 6 - 1040 % 2 ^ 6) % 2 ^ 6 ∧
    align_padding 1040 (2 ^ 6) < 2 ^ 6 ∧
    (1040 + align_padding 1040 (2 ^ 6)) % 2 ^ 6 = 0 ∧
    ∀ p, (1040 + p) % 2 ^ 6 = 0 → align_padding 1040 (2 ^ 6) ≤ p :=
  align_padding_exact 1040 6 (by decide)

/-- C23: for `size > 0` and `count > 0` the test `count > SIZE_MAX / size` holds
exactly when the product `size*count` exceeds `SIZE_MAX`, which is equivalent to
`size > SIZE_MAX / count`; when it holds `arena_alloc` rejects the request, and
when it does not the machine product equals the exact product. -/
theorem overflow_test_exact (sodium : Bool) (w : World) (arena : Arena)
    (size align count : Nat) (flags : Int) (hs : 0 < size) (hc : 0 < count) :
    (count > SIZE_MAX / size ↔ SIZE_MAX < size * count) ∧
    (SIZE_MAX < size * count ↔ size > SIZE_MAX / count) ∧
    (count > SIZE_MAX / size →
      arena_alloc sodium w arena size align count flags = (0, arena, w)) ∧
    (¬ count > SIZE_MAX / size → wrap (size * count) = size * count) := by
  have hM : SIZE_MAX = 2 ^ 64 - 1 := rfl
  refine ⟨overflow_test_iff size count hs, ?_, ?_, ?_⟩
  · rw [gt_iff_lt, Nat.div_lt_iff_lt_mul hc]
  · intro h
    have h1 : ¬ (count = 0 ∨ size = 0) := by omega
    unfold arena_alloc
    simp only [if_neg h1, if_pos h]
  · intro h
    have := (overflow_test_iff size count hs).not.mp h
    exact wrap_of_lt (by omega)

/-- Witness of C23: `size = 2^32`, `count = 2^32` is rejected, the product being
`2^64`; `size = 2^32`, `count = 2^32 - 1` passes. -/
theorem overflow_test_exact_witness :
    ((2 : Nat) ^ 32 > SIZE_MAX / 2 ^ 32 ↔ SIZE_MAX < 2 ^ 32 * 2 ^ 32) ∧
    (¬ (2 ^ 32 - 1 > SIZE_MAX / 2 ^ 32) → wrap (2 ^ 32 * (2 ^ 32 - 1)) = 2 ^ 32 * (2 ^ 32 - 1)) :=
  ⟨(overflow_test_exact false (world_of []) ⟨[], 0⟩ (2 ^ 32) 8 (2 ^ 32) 0 (by decide)
      (by decide)).1,
   (overflow_test_exact false (world_of []) ⟨[], 0⟩ (2 ^ 32) 8 (2 ^ 32 - 1) 0 (by decide)
      (by decide)).2.2.2⟩

/-- C24: a successful `arena_grow` appends exactly one block, with `used == 0`
and capacity at least `min_size`, whether or not the doubling of the last
capacity wraps around. -/
theorem arena_grow_capacity_ge (sodium : Bool) (w : World) (arena : Arena) (min_size : Nat)
    (h : (arena_grow sodium w arena min_size).1 = 0) :
    ∃ nb, (arena_grow sodium w arena min_size).2.1.blocks = arena.blocks ++ [nb] ∧
      min_size ≤ nb.capacity ∧ nb.used = 0 := by
  rcases arena_grow_cases sodium w arena min_size with ⟨h1, _⟩ | ⟨_, p, q, _, _, h2⟩
  · rw [h1] at h
    exact absurd h (by decide)
  · exact ⟨⟨q, grow_capacity arena min_size, 0, p⟩, by rw [h2],
      grow_capacity_ge arena min_size, rfl⟩

/-- Witness of C24: the last block has capacity `2^63`, so the doubling wraps to
0; `arena_grow(100)` still appends a block of capacity at least 100. -/
theorem arena_grow_capacity_ge_witness :
    ∃ nb, (arena_grow false (world_of [16384, 4128])
        ⟨[⟨4096, 2 ^ 63, 0, 2 ^ 62⟩], 0⟩ 100).2.1.blocks
          = [⟨4096, 2 ^ 63, 0, 2 ^ 62⟩] ++ [nb] ∧
      100 ≤ nb.capacity ∧ nb.used = 0 :=
  arena_grow_capacity_ge false (world_of [16384, 4128]) ⟨[⟨4096, 2 ^ 63, 0, 2 ^ 62⟩], 0⟩ 100
    (by decide)

/-- C13 (violated by the code): in run 11 the arena is created with 128 bytes
and a request of 256 bytes with alignment 64 does not fit; the appended block
gets capacity `max(2 * 128, 256) = 256` at line 224 and `used = 304` at line
163, but its buffer at 4304 needs 48 bytes of padding, so the zero-fill of
[4352, 4608) leaves the buffer [4304, 4560) and contains the whole record of
the appended block at [4576, 4608): after the call its capacity reads 0. -/
theorem appended_record_wiped :
    wipe_start.1 = 0 ∧ wipe_start.2.1.blocks = [⟨4256, 128, 0, 4112⟩] ∧
    wipe_alloc.1 = 4352 ∧
    wipe_alloc.2.2.calls
      = [Call.malloc 128, Call.malloc 32, Call.malloc 256, Call.malloc 32] ∧
    wipe_alloc.2.1.blocks = [⟨4256, 128, 0, 4112⟩, ⟨4576, 256, 304, 4304⟩] ∧
    wipe_alloc.2.2.oob = true ∧
    covers_record wipe_alloc.1 (256 * 1) ⟨4576, 256, 304, 4304⟩ = true ∧
    (∀ i < 32, wipe_alloc.2.2.mem (4576 + i) = 0) := by
  decide

/-- C19 (violated by the code): in run 12 the chain holds one block whose
record is at [1216, 1248); the request of 128 bytes with alignment 128 is
placed in a new block whose buffer at 1040 needs 112 bytes of padding, so the
zero-fill of [1152, 1280) leaves the buffer [1040, 1168) and contains the whole
record of the block that existed before the call: its `next`, `capacity`,
`used` and `base` read 0 afterwards. -/
theorem old_record_wiped :
    hole_start.1 = 0 ∧ hole_start.2.1.blocks = [⟨1216, 8, 0, 1184⟩] ∧
    hole_alloc.1 = 1152 ∧
    hole_alloc.2.2.calls
      = [Call.malloc 8, Call.malloc 32, Call.malloc 128, Call.malloc 32] ∧
    hole_alloc.2.2.oob = true ∧
    covers_record hole_alloc.1 (128 * 1) ⟨1216, 8, 0, 1184⟩ = true ∧
    (∀ i < 32, hole_alloc.2.2.mem (1216 + i) = 0) := by
  decide

/-- C25 (violated by the code): run 11 with both flags.  The pointer is 4352 in
both; with `ARENA_NO_ZERO` nothing is written and the record of the appended
block at [4576, 4608) keeps `capacity = 256`, `used = 304`; with flags 0 the
zero-fill leaves the buffer and wipes that record.  In run 8 with flags 0 the
zero-fill of `SIZE_MAX - 255` bytes from 8704 leaves the buffer as well (the
real call faults), while with `ARENA_NO_ZERO` the call returns 8704. -/
theorem zero_flag_changes_record :
    (wipe_alloc.1 = 4352 ∧ keep_alloc.1 = 4352 ∧
     keep_alloc.2.1.blocks = [⟨4256, 128, 0, 4112⟩, ⟨4576, 256, 304, 4304⟩] ∧
     keep_alloc.2.2.oob = false ∧ keep_alloc.2.2.mem (4576 + 8) = 170 ∧
     wipe_alloc.2.2.oob = true ∧ wipe_alloc.2.2.mem (4576 + 8) = 0 ∧
     covers_record wipe_alloc.1 (256 * 1) ⟨4576, 256, 304, 4304⟩ = true) ∧
    (shrink_alloc.1 = 8704 ∧ shrink_alloc.2.2.oob = false ∧
     fault_alloc.2.2.oob = true ∧
     ¬ (8704 + (2 ^ 64 - 256) * 1 ≤ 8192 + 1024)) := by
  decide

end Memsuo
